import Mathlib

/-!
Verification development for the STEM CS Club certificate verification
service (an Express + Mongoose application with a static public lookup
page).  The definitions below are a shallow embedding of the JavaScript
source:

* `certificates/script.js` — the public page's ID codec
  (`parseCertificateId`) and validator (`validateCertificateId`);
* `models/Certificate.js` — the certificate document with its
  `verify`, `revoke` and `trackIP` methods;
* `models/Admin.js` — the admin account with its lockout logic
  (`isLocked`, `recordFailedLogin`, `recordSuccessfulLogin`);
* `routes/certificates.js` — the public
  `GET /api/certificates/verify/:certificateId` and
  `GET /api/certificates/check/:certificateId` handlers;
* `routes/admin.js` — the `POST /api/admin/certificates/:id/revoke`
  handler;
* `routes/auth.js` — the `POST /api/auth/login` handler.

The document store is modelled as a list of records; each handler is a
function from (store, audit log, request, clock) to
(store, audit log, response).  JavaScript `Date` values are modelled as
natural numbers (milliseconds).  `bcrypt.compare` is passed in as an
explicit boolean oracle.  Fields of the Mongoose documents that no
public behaviour reads (`userAgent`, the free-form `details`/`changes`
payloads of audit entries, schema timestamps) are omitted from the
embedding; every field any handler branches on or returns is kept.
-/

/-! ## JavaScript string primitives -/

/-- Whitespace characters removed by JavaScript `String.prototype.trim`
(restricted to the ASCII range, which is all the repository feeds it). -/
def jsWhitespace (c : Char) : Bool :=
  c == ' ' || c == '\t' || c == '\n' || c == '\r' || c == '\x0b' || c == '\x0c'

/-- JavaScript `s.trim()`: drop leading and trailing whitespace. -/
def jsTrim (s : String) : String :=
  String.mk (((s.toList.dropWhile jsWhitespace).reverse.dropWhile jsWhitespace).reverse)

/-- JavaScript `s.toUpperCase()` (ASCII). -/
def jsToUpperCase (s : String) : String :=
  String.mk (s.toList.map Char.toUpper)

/-- JavaScript `s.toLowerCase()` (ASCII). -/
def jsToLowerCase (s : String) : String :=
  String.mk (s.toList.map Char.toLower)

/-- JavaScript `s.substring(a, b)` for `a ≤ b`. -/
def jsSubstring (s : String) (a b : Nat) : String :=
  String.mk ((s.toList.drop a).take (b - a))

/-- JavaScript `s.substring(a)` (from index `a` to the end). -/
def jsSubstringFrom (s : String) (a : Nat) : String :=
  String.mk (s.toList.drop a)

/-- JavaScript `parseInt` on a string of decimal digits (the source only
applies it after the `^\d{7}$` format check, so the all-digits case is the
only one exercised). -/
def digitsToNat (s : String) : Nat :=
  s.toList.foldl (fun n c => n * 10 + (c.toNat - 48)) 0

/-- The test `/^\d{7}$/.test(s)`: exactly seven decimal digits. -/
def matches7 (s : String) : Bool :=
  s.toList.length == 7 && s.toList.all Char.isDigit

/-! ## ID codec (`certificates/script.js`, `parseCertificateId`) -/

/-- The object returned by `parseCertificateId`. -/
structure ParsedId where
  id : String
  year : String
  subProgram : String
  serial : String
  serialDisplay : String
deriving DecidableEq, Repr

/-- `serial.replace(/^0+/, '') || '0'`: strip leading zeros, falling back
to `"0"` when everything was stripped. -/
def stripLeadingZeros (s : String) : String :=
  match s.toList.dropWhile (· == '0') with
  | [] => "0"
  | l => String.mk l

/-- `parseCertificateId` from `certificates/script.js`: `null` (here
`none`) unless the input is exactly seven digits, otherwise the sliced
components. -/
def parseCertificateId (id : String) : Option ParsedId :=
  if matches7 id then
    some
      { id := id
        year := "20" ++ jsSubstring id 0 2
        subProgram := jsSubstring id 2 4
        serial := jsSubstring id 4 7
        serialDisplay := stripLeadingZeros (jsSubstring id 4 7) }
  else
    none

/-! ## Validator (`certificates/script.js`, `validateCertificateId`) -/

/-- Result of `validateCertificateId`: either `valid: false` with an error
message, or `valid: true` with the parsed components. -/
inductive IdValidation where
  | invalid (error : String)
  | ok (parsed : ParsedId)
deriving DecidableEq, Repr

def invalidFormatMsg : String := "Certificate ID must be 7 digits (Format: YYSSCCC)"
def invalidYearMsg : String := "Invalid year in certificate ID"
def invalidSubProgramMsg : String := "Invalid sub-program code"
def invalidSerialMsg : String := "Invalid serial number"

/-- `validateCertificateId` from `certificates/script.js`.  The source
first normalises the input (`id = id.trim().toUpperCase()`), then checks
the format, then the year, sub-program and serial ranges in order. -/
def validateCertificateId (raw : String) : IdValidation :=
  let id := jsToUpperCase (jsTrim raw)
  if matches7 id then
    match parseCertificateId id with
    | none => .invalid invalidFormatMsg
    | some parsed =>
      let yearNum := digitsToNat (jsSubstringFrom parsed.year 2)
      if yearNum < 20 ∨ yearNum > 99 then .invalid invalidYearMsg
      else
        let subProgNum := digitsToNat parsed.subProgram
        if subProgNum < 0 ∨ subProgNum > 99 then .invalid invalidSubProgramMsg
        else
          let serialNum := digitsToNat parsed.serial
          if serialNum < 1 ∨ serialNum > 9999 then .invalid invalidSerialMsg
          else .ok parsed
  else
    .invalid invalidFormatMsg

/-! ## Data model (`models/Certificate.js`, `models/AuditLog.js`) -/

/-- One entry of the certificate's `ipAddresses` array. -/
structure IPEntry where
  ip : String
  verifiedAt : Nat
deriving DecidableEq, Repr

/-- The certificate document from `models/Certificate.js`.  `_id` models
the Mongo object id; dates are milliseconds. -/
structure Cert where
  _id : Nat
  certificateId : String
  recipientName : String
  recipientEmail : String
  program : String
  programCategory : String
  awardDate : Nat
  verificationHash : String
  isVerified : Bool
  verificationCount : Nat
  lastVerifiedAt : Option Nat
  issuedBy : String
  certificateUrl : Option String
  revokedAt : Option Nat
  revocationReason : Option String
  isRevoked : Bool
  notes : Option String
  ipAddresses : List IPEntry
  createdBy : Option String
  updatedBy : Option String
deriving DecidableEq, Repr

/-- The `action` enum of `models/AuditLog.js`. -/
inductive AuditAction where
  | CREATE | READ | UPDATE | DELETE | VERIFY | REVOKE | LOGIN | LOGOUT
deriving DecidableEq, Repr

/-- The `status` enum of `models/AuditLog.js`. -/
inductive AuditStatus where
  | SUCCESS | FAILED
deriving DecidableEq, Repr

/-- An audit-log document (`models/AuditLog.js`); the free-form
`details`/`changes` payloads and `userAgent` are omitted. -/
structure AuditEntry where
  action : AuditAction
  entityType : String
  entityId : Option String
  performedByUsername : Option String
  ipAddress : Option String
  status : AuditStatus
  errorMessage : Option String
deriving DecidableEq, Repr

/-- Virtual `year` of the certificate schema: `'20' + certificateId[0:2]`. -/
def certYear (c : Cert) : String :=
  "20" ++ jsSubstring c.certificateId 0 2

/-- Virtual `serialNumber` of the certificate schema: `certificateId[4:7]`. -/
def certSerialNumber (c : Cert) : String :=
  jsSubstring c.certificateId 4 7

/-- `certificateSchema.methods.verify`: throws when revoked or not valid,
otherwise increments the counter and stamps `lastVerifiedAt`. -/
def certVerify (c : Cert) (now : Nat) : Except String Cert :=
  if c.isRevoked then .error "Certificate has been revoked"
  else if !c.isVerified then .error "Certificate is not valid"
  else .ok { c with verificationCount := c.verificationCount + 1, lastVerifiedAt := some now }

/-- `certificateSchema.methods.revoke` (without the trailing `save`):
sets the revoked flag, the timestamp and the reason; the JavaScript
default parameter supplies `'No reason provided'` when the argument is
`undefined`. -/
def certRevoke (c : Cert) (reason : Option String) (now : Nat) : Cert :=
  { c with
      isRevoked := true
      revokedAt := some now
      revocationReason := some (reason.getD "No reason provided") }

/-- Mutating the first entry whose `ip` matches, as the JavaScript
`find`-then-assign does. -/
def updateFirstIP : List IPEntry → String → Nat → List IPEntry
  | [], _, _ => []
  | e :: rest, ip, now =>
    if e.ip == ip then { e with verifiedAt := now } :: rest
    else e :: updateFirstIP rest ip now

/-- `certificateSchema.methods.trackIP`: if the IP is new, evict the
front entry when the list already holds 10 (`shift()`), then append; if
it is already present, refresh that entry's timestamp. -/
def trackIP (c : Cert) (ip : String) (now : Nat) : Cert :=
  match c.ipAddresses.find? (fun e => e.ip == ip) with
  | none =>
    let l := if c.ipAddresses.length ≥ 10 then c.ipAddresses.drop 1 else c.ipAddresses
    { c with ipAddresses := l ++ [{ ip := ip, verifiedAt := now }] }
  | some _ =>
    { c with ipAddresses := updateFirstIP c.ipAddresses ip now }

/-! ## Record store access -/

/-- `Certificate.findByCertificateId` (static): `findOne` on the
uppercased id. -/
def findByCertificateId (store : List Cert) (certId : String) : Option Cert :=
  store.find? (fun c => c.certificateId == jsToUpperCase certId)

/-- `Certificate.findById`. -/
def findById (store : List Cert) (id : Nat) : Option Cert :=
  store.find? (fun c => c._id == id)

/-- Persisting a fetched document (`certificate.save()`): the stored
record with the same `_id` is replaced. -/
def saveRecord (store : List Cert) (c : Cert) : List Cert :=
  store.map (fun r => if r._id == c._id then c else r)

/-! ## Public certificate routes (`routes/certificates.js`) -/

/-- A request to `GET /api/certificates/verify/:certificateId`.
`paramId` is the `:certificateId` path segment (`req.params`); `queryId`
is the `certificateId` query-string field (`req.query`), absent when the
URL carries no such query parameter.  The route's validation chain is
built with `query('certificateId')`, so it inspects `queryId`, while the
handler body reads `paramId`. -/
structure VerifyReq where
  paramId : String
  queryId : Option String
  ip : String
deriving DecidableEq, Repr

/-- The express-validator chain
`query('certificateId').trim().toUpperCase().matches(/^\d{7}$/)`:
an absent field fails `matches`, a present one is trimmed and uppercased
before the format test. -/
def queryFieldValid (queryId : Option String) : Bool :=
  match queryId with
  | none => false
  | some v => matches7 (jsToUpperCase (jsTrim v))

/-- The public-safe certificate object returned by the verify handler:
exactly the fields the route copies out of the document. -/
structure PublicCert where
  certificateId : String
  recipientName : String
  program : String
  programCategory : String
  awardDate : Nat
  issuedBy : String
  year : String
  serialNumber : String
  verificationCount : Nat
deriving DecidableEq, Repr

/-- The projection the verify handler builds for its 200 response. -/
def publicProjection (c : Cert) : PublicCert :=
  { certificateId := c.certificateId
    recipientName := c.recipientName
    program := c.program
    programCategory := c.programCategory
    awardDate := c.awardDate
    issuedBy := c.issuedBy
    year := certYear c
    serialNumber := certSerialNumber c
    verificationCount := c.verificationCount }

/-- Responses of the verify route: 400 from `handleValidationErrors`,
404 not-found, 410 revoked (carrying timestamp and reason), 200 success,
500 when `certificate.verify()` throws. -/
inductive VerifyResp where
  | validationFailed
  | notFound
  | revokedResp (revokedAt : Option Nat) (revocationReason : Option String)
  | success (certificate : PublicCert)
  | serverError
deriving DecidableEq, Repr

/-- The `GET /verify/:certificateId` handler pipeline
(`routes/certificates.js`): `handleValidationErrors` first, then lookup,
revocation check, `verify()`, `trackIP()`, `save()` and the audit
write. -/
def verifyHandler (store : List Cert) (log : List AuditEntry) (req : VerifyReq) (now : Nat) :
    List Cert × List AuditEntry × VerifyResp :=
  if !queryFieldValid req.queryId then
    (store, log, .validationFailed)
  else
    match findByCertificateId store req.paramId with
    | none =>
      (store,
       log ++ [{ action := .VERIFY, entityType := "CERTIFICATE", entityId := some req.paramId,
                 performedByUsername := none, ipAddress := some req.ip,
                 status := .FAILED, errorMessage := some "Certificate not found" }],
       .notFound)
    | some certificate =>
      if certificate.isRevoked then
        (store,
         log ++ [{ action := .VERIFY, entityType := "CERTIFICATE", entityId := some req.paramId,
                   performedByUsername := none, ipAddress := some req.ip,
                   status := .FAILED, errorMessage := some "Certificate revoked" }],
         .revokedResp certificate.revokedAt certificate.revocationReason)
      else
        match certVerify certificate now with
        | .error _ => (store, log, .serverError)
        | .ok verified =>
          let tracked := trackIP verified req.ip now
          (saveRecord store tracked,
           log ++ [{ action := .VERIFY, entityType := "CERTIFICATE", entityId := some req.paramId,
                     performedByUsername := none, ipAddress := some req.ip,
                     status := .SUCCESS, errorMessage := none }],
           .success (publicProjection tracked))

/-- A request to `GET /api/certificates/check/:certificateId`; the same
`query('certificateId')` validation chain guards it. -/
structure CheckReq where
  paramId : String
  queryId : Option String
deriving DecidableEq, Repr

/-- Responses of the check route. -/
inductive CheckResp where
  | validationFailed
  | okResp (certExists : Bool) (certificateId : String)
deriving DecidableEq, Repr

/-- The `GET /check/:certificateId` handler: a pure existence query
`Certificate.exists({ certificateId, isRevoked: false })`, no writes and
no audit entry on any path. -/
def checkHandler (store : List Cert) (log : List AuditEntry) (req : CheckReq) :
    List Cert × List AuditEntry × CheckResp :=
  if !queryFieldValid req.queryId then
    (store, log, .validationFailed)
  else
    (store, log,
     .okResp (store.any (fun c => c.certificateId == req.paramId && !c.isRevoked)) req.paramId)

/-! ## Admin revoke route (`routes/admin.js`) -/

/-- A request to `POST /api/admin/certificates/:id/revoke` from an
authenticated admin.  `reason` is the optional body field; `none` models
an absent (`undefined`) field. -/
structure RevokeReq where
  id : Nat
  reason : Option String
  ip : String
  username : String
deriving DecidableEq, Repr

/-- Responses of the revoke route. -/
inductive RevokeResp where
  | validationFailed
  | notFound
  | alreadyRevoked
  | revokedOk (certificate : Cert)
deriving DecidableEq, Repr

/-- `body('reason').optional().trim().isLength({ max: 200 })`. -/
def revokeBodyValid (reason : Option String) : Bool :=
  match reason with
  | none => true
  | some r => (jsTrim r).length ≤ 200

/-- The revoke handler: 404 when the id resolves to nothing, 400 when the
certificate is already revoked (no audit entry in either case), otherwise
`revoke(reason)` persisted plus exactly one REVOKE audit entry.  The
`trim` sanitizer has rewritten the body field before the handler reads
it. -/
def revokeHandler (store : List Cert) (log : List AuditEntry) (req : RevokeReq) (now : Nat) :
    List Cert × List AuditEntry × RevokeResp :=
  if !revokeBodyValid req.reason then
    (store, log, .validationFailed)
  else
    match findById store req.id with
    | none => (store, log, .notFound)
    | some certificate =>
      if certificate.isRevoked then
        (store, log, .alreadyRevoked)
      else
        let revoked := certRevoke certificate (req.reason.map jsTrim) now
        (saveRecord store revoked,
         log ++ [{ action := .REVOKE, entityType := "CERTIFICATE",
                   entityId := some (Nat.repr certificate._id),
                   performedByUsername := some req.username, ipAddress := some req.ip,
                   status := .SUCCESS, errorMessage := none }],
         .revokedOk revoked)

/-! ## Admin accounts and login (`models/Admin.js`, `routes/auth.js`) -/

/-- The admin document from `models/Admin.js` (fields the login path
reads). -/
structure AdminAcc where
  _id : Nat
  username : String
  passwordHash : String
  isActive : Bool
  attemptsCount : Nat
  lastAttemptAt : Option Nat
  lastLogin : Option Nat
  lastLoginIP : Option String
deriving DecidableEq, Repr

/-- `adminSchema.methods.isLocked`:
`loginAttempts.count >= 5 && new Date() - lastAttemptAt < 30 * 60 * 1000`.
With `lastAttemptAt` unset the JavaScript comparison is `NaN < …`,
i.e. false.  A `lastAttemptAt` in the future compares below the window in
both JavaScript (negative difference) and here (truncated subtraction). -/
def adminIsLocked (a : AdminAcc) (now : Nat) : Bool :=
  if 5 ≤ a.attemptsCount then
    match a.lastAttemptAt with
    | none => false
    | some t => decide (now - t < 30 * 60 * 1000)
  else false

/-- `adminSchema.methods.recordFailedLogin` (without the trailing
`save`). -/
def recordFailedLogin (a : AdminAcc) (ip : String) (now : Nat) : AdminAcc :=
  { a with attemptsCount := a.attemptsCount + 1, lastAttemptAt := some now,
           lastLoginIP := some ip }

/-- The account state after a sequence of recorded failed logins (folding
`recordFailedLogin` over the attempt times). -/
def failedAttempts (a : AdminAcc) (ip : String) (ts : List Nat) : AdminAcc :=
  ts.foldl (fun x t => recordFailedLogin x ip t) a

/-- `adminSchema.methods.recordSuccessfulLogin` (without the trailing
`save`). -/
def recordSuccessfulLogin (a : AdminAcc) (ip : String) (now : Nat) : AdminAcc :=
  { a with attemptsCount := 0, lastLogin := some now, lastLoginIP := some ip }

/-- `Admin.findOne({ username: username.toLowerCase() })`. -/
def findAdmin (admins : List AdminAcc) (username : String) : Option AdminAcc :=
  admins.find? (fun a => a.username == jsToLowerCase username)

/-- Persisting a fetched admin document. -/
def saveAdmin (admins : List AdminAcc) (a : AdminAcc) : List AdminAcc :=
  admins.map (fun x => if x._id == a._id then a else x)

/-- Responses of the login route body: 401 (uniform for unknown user and
wrong password), 429 locked, 403 inactive, 200 success. -/
inductive LoginResp where
  | authFailed
  | locked
  | inactive
  | loginOk
deriving DecidableEq, Repr

/-- The `POST /api/auth/login` handler body (`routes/auth.js`), after
`handleValidationErrors`: lookup, lock check, active check, password
comparison (`bcrypt.compare`, passed in as the oracle `cmp`), and the
failure/success bookkeeping.  The lock check precedes the password
comparison, so a locked account answers 429 whatever the password. -/
def loginHandler (admins : List AdminAcc) (log : List AuditEntry)
    (username password ip : String) (now : Nat) (cmp : String → String → Bool) :
    List AdminAcc × List AuditEntry × LoginResp :=
  match findAdmin admins username with
  | none =>
    (admins,
     log ++ [{ action := .LOGIN, entityType := "ADMIN", entityId := none,
               performedByUsername := none, ipAddress := some ip,
               status := .FAILED, errorMessage := some "Admin not found" }],
     .authFailed)
  | some admin =>
    if adminIsLocked admin now then
      (admins, log, .locked)
    else if !admin.isActive then
      (admins, log, .inactive)
    else if !cmp password admin.passwordHash then
      (saveAdmin admins (recordFailedLogin admin ip now),
       log ++ [{ action := .LOGIN, entityType := "ADMIN", entityId := none,
                 performedByUsername := some username, ipAddress := some ip,
                 status := .FAILED, errorMessage := some "Invalid password" }],
       .authFailed)
    else
      (saveAdmin admins (recordSuccessfulLogin admin ip now),
       log ++ [{ action := .LOGIN, entityType := "ADMIN",
                 entityId := some (Nat.repr admin._id),
                 performedByUsername := some admin.username, ipAddress := some ip,
                 status := .SUCCESS, errorMessage := none }],
       .loginOk)

/-! ## The verify route's database round trip (for the concurrency
analysis).  The handler's interaction with the store is a `findOne`
(read), an in-memory update, and a `save` (write-back of the whole
document); these are the three phases below. -/

/-- Read phase of a public verification: the `findOne`. -/
def verifyReadPhase (store : List Cert) (certId : String) : Option Cert :=
  findByCertificateId store certId

/-- In-memory update applied between read and write on the success path:
`verify()` then `trackIP()`. -/
def verifySuccessUpdate (c : Cert) (ip : String) (now : Nat) : Cert :=
  trackIP { c with verificationCount := c.verificationCount + 1, lastVerifiedAt := some now }
    ip now

/-- Write phase: the `save()` of the mutated document. -/
def verifyWritePhase (store : List Cert) (c : Cert) : List Cert :=
  saveRecord store c

/-! ## Concrete sample data (mirroring the repository's own examples:
`2501001` is the active sample certificate of the README and mock
database, `2501002` a revoked one with the reason of spec scenario D). -/

/-- An active stored certificate with id `2501001`. -/
def sampleCert : Cert :=
  { _id := 1, certificateId := "2501001", recipientName := "Ahmed Hassan",
    recipientEmail := "ahmed@example.com", program := "Web Development",
    programCategory := "01", awardDate := 1000, verificationHash := "hash1",
    isVerified := true, verificationCount := 0, lastVerifiedAt := none,
    issuedBy := "STEM CS Club", certificateUrl := none, revokedAt := none,
    revocationReason := none, isRevoked := false, notes := none,
    ipAddresses := [], createdBy := none, updatedBy := none }

/-- A revoked stored certificate with id `2501002`. -/
def sampleRevokedCert : Cert :=
  { _id := 2, certificateId := "2501002", recipientName := "Fatima Ahmed",
    recipientEmail := "fatima@example.com", program := "Machine Learning",
    programCategory := "01", awardDate := 1000, verificationHash := "hash2",
    isVerified := true, verificationCount := 3, lastVerifiedAt := some 1500,
    issuedBy := "STEM CS Club", certificateUrl := none, revokedAt := some 2000,
    revocationReason := some "policy violation", isRevoked := true, notes := none,
    ipAddresses := [{ ip := "8.8.8.8", verifiedAt := 1500 }], createdBy := none,
    updatedBy := none }

/-! ## Helper lemmas -/

/-- Dropping the `"20"` the codec prepended recovers the year digits. -/
theorem jsSubstringFrom_two_append (x : String) : jsSubstringFrom ("20" ++ x) 2 = x := by
  have h : ("20" ++ x).data = "20".data ++ x.data := String.data_append "20" x
  simp [jsSubstringFrom, String.toList, h]

/-- `trackIP` only touches the `ipAddresses` field. -/
theorem trackIP_frame (c : Cert) (ip : String) (now : Nat) :
    (trackIP c ip now).verificationCount = c.verificationCount ∧
    (trackIP c ip now).lastVerifiedAt = c.lastVerifiedAt ∧
    (trackIP c ip now)._id = c._id ∧
    (trackIP c ip now).certificateId = c.certificateId := by
  unfold trackIP
  cases c.ipAddresses.find? (fun e => e.ip == ip) <;> simp

/-- Refreshing the first matching entry's timestamp keeps the IPs. -/
theorem updateFirstIP_map_ip (l : List IPEntry) (ip : String) (now : Nat) :
    (updateFirstIP l ip now).map IPEntry.ip = l.map IPEntry.ip := by
  induction l with
  | nil => rfl
  | cons e rest ih =>
    by_cases h : e.ip == ip
    · simp [updateFirstIP, h]
    · simp [updateFirstIP, h, ih]

/-- Refreshing the first matching entry's timestamp keeps the length. -/
theorem updateFirstIP_length (l : List IPEntry) (ip : String) (now : Nat) :
    (updateFirstIP l ip now).length = l.length := by
  induction l with
  | nil => rfl
  | cons e rest ih =>
    by_cases h : e.ip == ip
    · simp [updateFirstIP, h]
    · simp [updateFirstIP, h, ih]

/-- When no entry carries the given IP, the timestamp-refresh map is the
identity. -/
theorem map_refresh_of_not_mem (l : List IPEntry) (ip : String) (now : Nat)
    (h : ∀ e ∈ l, e.ip ≠ ip) :
    l.map (fun e => if e.ip = ip then { e with verifiedAt := now } else e) = l := by
  induction l with
  | nil => rfl
  | cons e rest ih =>
    have he : e.ip ≠ ip := h e (by simp)
    simp only [List.map_cons, if_neg he]
    rw [ih (fun x hx => h x (by simp [hx]))]

/-- On a list with pairwise-distinct IPs, refreshing the first matching
entry is the same as refreshing every matching entry. -/
theorem updateFirstIP_eq_map (l : List IPEntry) (ip : String) (now : Nat)
    (hnd : (l.map IPEntry.ip).Nodup) :
    updateFirstIP l ip now
      = l.map (fun e => if e.ip = ip then { e with verifiedAt := now } else e) := by
  induction l with
  | nil => rfl
  | cons e rest ih =>
    simp only [List.map_cons, List.nodup_cons] at hnd
    by_cases h : e.ip = ip
    · have hrest : ∀ x ∈ rest, x.ip ≠ ip := by
        intro x hx hxip
        exact hnd.1 (h ▸ hxip ▸ List.mem_map_of_mem IPEntry.ip hx)
      simp only [updateFirstIP, beq_iff_eq, if_pos h, List.map_cons]
      rw [map_refresh_of_not_mem rest ip now hrest]
    · simp only [updateFirstIP, beq_iff_eq, if_neg h, List.map_cons]
      rw [ih hnd.2]

/-! ## Claim theorems -/

/-- Claim C4: for every 7-digit string `s`, `parseCertificateId` is total
(returns a value, never `null`) and decodes deterministically into
`year = "20" + s[0:2]`, `subProgram = s[2:4]`, `serial = s[4:7]`, with
`serialDisplay` the serial stripped of leading zeros, falling back to
`"0"` when the stripped serial is empty.  (Determinism and purity are
inherent: the embedding is a function.) -/
theorem parse_decodes_seven_digit_ids (s : String) (h : matches7 s = true) :
    parseCertificateId s =
      some { id := s
             year := "20" ++ jsSubstring s 0 2
             subProgram := jsSubstring s 2 4
             serial := jsSubstring s 4 7
             serialDisplay :=
               match (jsSubstring s 4 7).toList.dropWhile (· == '0') with
               | [] => "0"
               | l => String.mk l } ∧
    (parseCertificateId s).isSome = true := by
  constructor
  · simp only [parseCertificateId, h, if_true]
    rfl
  · simp [parseCertificateId, h]

/-- Witness for C4 at the repository's sample id `2501001`. -/
theorem parse_decodes_seven_digit_ids_witness :
    parseCertificateId "2501001" =
      some { id := "2501001", year := "2025", subProgram := "01", serial := "001",
             serialDisplay := "1" } :=
  ((parse_decodes_seven_digit_ids "2501001" (by decide)).1).trans (by decide)

/-- Counterexample to claim C3 as stated: the validator normalises its
input with `trim().toUpperCase()` before the format test, so the string
`" 2501001"` (a leading space, then seven digits), which does not match
`^\d{7}$`, is nevertheless accepted rather than rejected with the
invalid-format message. -/
theorem validator_accepts_untrimmed_input :
    matches7 " 2501001" = false ∧
    validateCertificateId " 2501001" =
      .ok { id := "2501001", year := "2025", subProgram := "01", serial := "001",
            serialDisplay := "1" } := by
  decide

/-- Claim C3 (amended): writing `t` for the trimmed and uppercased input,
the validator evaluates its rules on `t` in order, first failure winning:
no 7-digit format gives the invalid-format message; then year digits
outside `[20, 99]` give the invalid-year message; then sub-program
outside `[0, 99]` gives the invalid-sub-program message (unreachable for
7-digit inputs); then serial outside `[1, 9999]` gives the invalid-serial
message; otherwise the decoded structure is returned as valid. -/
theorem validator_rule_order (s t : String) (ht : t = jsToUpperCase (jsTrim s)) :
    (matches7 t = false → validateCertificateId s = .invalid invalidFormatMsg) ∧
    (matches7 t = true →
      (digitsToNat (jsSubstring t 0 2) < 20 ∨ 99 < digitsToNat (jsSubstring t 0 2) →
        validateCertificateId s = .invalid invalidYearMsg) ∧
      (20 ≤ digitsToNat (jsSubstring t 0 2) → digitsToNat (jsSubstring t 0 2) ≤ 99 →
        (99 < digitsToNat (jsSubstring t 2 4) →
          validateCertificateId s = .invalid invalidSubProgramMsg) ∧
        (digitsToNat (jsSubstring t 2 4) ≤ 99 →
          (digitsToNat (jsSubstring t 4 7) < 1 ∨ 9999 < digitsToNat (jsSubstring t 4 7) →
            validateCertificateId s = .invalid invalidSerialMsg) ∧
          (1 ≤ digitsToNat (jsSubstring t 4 7) → digitsToNat (jsSubstring t 4 7) ≤ 9999 →
            validateCertificateId s =
              .ok { id := t
                    year := "20" ++ jsSubstring t 0 2
                    subProgram := jsSubstring t 2 4
                    serial := jsSubstring t 4 7
                    serialDisplay := stripLeadingZeros (jsSubstring t 4 7) })))) := by
  subst ht
  constructor
  · intro h
    simp [validateCertificateId, h]
  · intro h
    have hp : parseCertificateId (jsToUpperCase (jsTrim s)) =
        some { id := jsToUpperCase (jsTrim s)
               year := "20" ++ jsSubstring (jsToUpperCase (jsTrim s)) 0 2
               subProgram := jsSubstring (jsToUpperCase (jsTrim s)) 2 4
               serial := jsSubstring (jsToUpperCase (jsTrim s)) 4 7
               serialDisplay :=
                 stripLeadingZeros (jsSubstring (jsToUpperCase (jsTrim s)) 4 7) } := by
      simp [parseCertificateId, h]
    refine ⟨fun hy => ?_, fun hy1 hy2 => ⟨fun hsp => ?_, fun hsp2 =>
      ⟨fun hs => ?_, fun hs1 hs2 => ?_⟩⟩⟩ <;>
      simp only [validateCertificateId, h, if_true, hp, jsSubstringFrom_two_append]
    · rw [if_pos hy]
    · rw [if_neg (by omega), if_pos (by omega)]
    · rw [if_neg (by omega), if_neg (by omega), if_pos hs]
    · rw [if_neg (by omega), if_neg (by omega), if_neg (by omega)]

/-- Witness for C3 (amended), covering the claim's boundary cases: year
digits `19` are rejected, `20` and `99` accepted, serial `000`
rejected. -/
theorem validator_rule_order_witness :
    validateCertificateId "1901001" = .invalid invalidYearMsg ∧
    validateCertificateId "2001001" =
      .ok { id := "2001001", year := "2020", subProgram := "01", serial := "001",
            serialDisplay := "1" } ∧
    validateCertificateId "9901001" =
      .ok { id := "9901001", year := "2099", subProgram := "01", serial := "001",
            serialDisplay := "1" } ∧
    validateCertificateId "2501000" = .invalid invalidSerialMsg := by
  refine ⟨?_, ?_, ?_, ?_⟩
  · exact ((validator_rule_order "1901001" "1901001" (by decide)).2 (by decide)).1
      (by decide)
  · have h1 := (validator_rule_order "2001001" "2001001" (by decide)).2 (by decide)
    have h2 := (h1.2 (by decide) (by decide)).2 (by decide)
    exact (h2.2 (by decide) (by decide)).trans (by decide)
  · have h1 := (validator_rule_order "9901001" "9901001" (by decide)).2 (by decide)
    have h2 := (h1.2 (by decide) (by decide)).2 (by decide)
    exact (h2.2 (by decide) (by decide)).trans (by decide)
  · have h1 := (validator_rule_order "2501000" "2501000" (by decide)).2 (by decide)
    have h2 := (h1.2 (by decide) (by decide)).2 (by decide)
    exact h2.1 (by decide)

/-- Claim C1, evaluated at the failing inputs.  The verify route's
format-validation chain is built with `query('certificateId')`, so it
inspects the `certificateId` query-string field, while the handler looks
up `req.params.certificateId`.  Consequently (first conjunct) a request
whose path ID `2501001` is well-formed and names an existing active
record is rejected by validation — no lookup, no audit entry, no
verification — because the URL carries no query field; and (second
conjunct) a request whose path ID `zzzzzzz` fails `^\d{7}$` still reaches
the database (a lookup for `ZZZZZZZ`) and writes a FAILED audit entry,
because a well-formed query field passes validation. -/
theorem verify_validates_query_not_path :
    (matches7 "2501001" = true ∧
     verifyHandler [sampleCert] [] { paramId := "2501001", queryId := none, ip := "9.9.9.9" } 5
       = ([sampleCert], [], .validationFailed)) ∧
    (matches7 "zzzzzzz" = false ∧
     verifyHandler [sampleCert] [] { paramId := "zzzzzzz", queryId := some "2501001", ip := "9.9.9.9" } 5
       = ([sampleCert],
          [{ action := .VERIFY, entityType := "CERTIFICATE", entityId := some "zzzzzzz",
             performedByUsername := none, ipAddress := some "9.9.9.9",
             status := .FAILED, errorMessage := some "Certificate not found" }],
          .notFound)) := by
  decide

/-- Claim C9, evaluated at the failing schedule.  The verify handler's
database interaction is a `findOne` (read) followed by an in-memory
update and a whole-document `save` (write), not a single atomic keyed
update: the first two conjuncts exhibit the handler's store effect as
exactly that read–update–write composition on the sample store.  The
remaining conjuncts run two verifications of the same active certificate
`2501001` (counter 0): when the two round trips interleave as
read, read, write, write, both reads see counter 0 and the final stored
counter is 1 — one increment is lost — whereas the serial schedule,
whose second read sees the first write, stores 2. -/
theorem verify_counter_read_then_write_loses_update :
    verifyReadPhase [sampleCert] "2501001" = some sampleCert ∧
    (verifyHandler [sampleCert] []
        { paramId := "2501001", queryId := some "2501001", ip := "1.1.1.1" } 5).1
      = verifyWritePhase [sampleCert] (verifySuccessUpdate sampleCert "1.1.1.1" 5) ∧
    (findByCertificateId
        (verifyWritePhase
          (verifyWritePhase [sampleCert] (verifySuccessUpdate sampleCert "1.1.1.1" 5))
          (verifySuccessUpdate sampleCert "2.2.2.2" 6))
        "2501001").map Cert.verificationCount = some 1 ∧
    (verifyReadPhase
        (verifyWritePhase [sampleCert] (verifySuccessUpdate sampleCert "1.1.1.1" 5))
        "2501001").map
      (fun c =>
        (findByCertificateId
            (verifyWritePhase
              (verifyWritePhase [sampleCert] (verifySuccessUpdate sampleCert "1.1.1.1" 5))
              (verifySuccessUpdate c "2.2.2.2" 6))
            "2501001").map Cert.verificationCount) = some (some 2) := by
  decide

/-- Claim C8: the public existence check never mutates state.  For every
request and every starting state the handler returns the certificate
store and the audit log untouched, and iterating the endpoint's state
effect any number of times is the identity on the state. -/
theorem check_endpoint_never_mutates (store : List Cert) (log : List AuditEntry)
    (req : CheckReq) (n : Nat) :
    (checkHandler store log req).1 = store ∧
    (checkHandler store log req).2.1 = log ∧
    (fun st : List Cert × List AuditEntry =>
        ((checkHandler st.1 st.2 req).1, (checkHandler st.1 st.2 req).2.1))^[n]
        (store, log)
      = (store, log) := by
  have hfix : ∀ st : List Cert × List AuditEntry,
      ((checkHandler st.1 st.2 req).1, (checkHandler st.1 st.2 req).2.1) = st := by
    intro st
    unfold checkHandler
    by_cases h : queryFieldValid req.queryId <;> simp [h]
  refine ⟨?_, ?_, Function.iterate_fixed (hfix (store, log)) n⟩
  · have := congrArg Prod.fst (hfix (store, log))
    simpa using this
  · have := congrArg Prod.snd (hfix (store, log))
    simpa using this

/-- Claim C10: a request reaching the existence-check handler for an ID
whose stored record(s) are all revoked gets `exists: false` — the
existence query filters on `isRevoked: false`, so revoked certificates
answer exactly like absent ones. -/
theorem check_reports_revoked_as_absent (store : List Cert) (log : List AuditEntry)
    (req : CheckReq)
    (hq : queryFieldValid req.queryId = true)
    (hex : ∃ c ∈ store, c.certificateId = req.paramId)
    (hrev : ∀ c ∈ store, c.certificateId = req.paramId → c.isRevoked = true) :
    checkHandler store log req = (store, log, .okResp false req.paramId) := by
  unfold checkHandler
  rw [hq]
  simp only [Bool.not_true, Bool.false_eq_true, if_false]
  have hany : store.any (fun c => c.certificateId == req.paramId && !c.isRevoked) = false := by
    rw [List.any_eq_false]
    intro c hc
    by_cases h : c.certificateId = req.paramId
    · simp [h, hrev c hc h]
    · simp [h]
  rw [hany]

/-- Witness for C10: the store holds the revoked sample certificate
`2501002`, and the check endpoint reports it as absent. -/
theorem check_reports_revoked_as_absent_witness :
    checkHandler [sampleRevokedCert] []
        { paramId := "2501002", queryId := some "2501002" }
      = ([sampleRevokedCert], [], .okResp false "2501002") :=
  check_reports_revoked_as_absent [sampleRevokedCert] []
    { paramId := "2501002", queryId := some "2501002" }
    (by decide) ⟨sampleRevokedCert, by decide, by decide⟩ (by decide)


/-- The success-path update increments the counter by exactly 1 and
stamps the last-verified time (helper for C2). -/
theorem verifySuccessUpdate_fields (c : Cert) (ip : String) (now : Nat) :
    (verifySuccessUpdate c ip now).verificationCount = c.verificationCount + 1 ∧
    (verifySuccessUpdate c ip now).lastVerifiedAt = some now := by
  unfold verifySuccessUpdate
  have h := trackIP_frame
    { c with verificationCount := c.verificationCount + 1, lastVerifiedAt := some now }
    ip now
  exact ⟨h.1, h.2.1⟩

/-- After `trackIP ip`, the IP is in the list (helper for C2). -/
theorem trackIP_mem_ip (c : Cert) (ip : String) (now : Nat) :
    ip ∈ (trackIP c ip now).ipAddresses.map IPEntry.ip := by
  unfold trackIP
  cases hfe : c.ipAddresses.find? (fun e => e.ip == ip) with
  | none => simp
  | some e =>
    have hmem : e ∈ c.ipAddresses := List.mem_of_find?_eq_some hfe
    have hip : e.ip = ip := by simpa using List.find?_some hfe
    simp only
    rw [updateFirstIP_map_ip]
    exact hip ▸ List.mem_map_of_mem IPEntry.ip hmem

/-- Claim C2: a successful public verification of an existing, active
certificate persists the record with its verification counter incremented
by exactly 1, its last-verified timestamp set to the request time and the
caller IP present in the IP list, writes one SUCCESS audit entry, and
answers with the public-safe projection only — the final conjunct shows
the projection ignores the IP history and every internal field
(`_id`, email, hash, validity/revocation bookkeeping, notes, URL, audit
fields). -/
theorem verify_success_updates_and_projects (store : List Cert) (log : List AuditEntry)
    (req : VerifyReq) (now : Nat) (c : Cert)
    (hq : queryFieldValid req.queryId = true)
    (hfind : findByCertificateId store req.paramId = some c)
    (hrev : c.isRevoked = false) (hver : c.isVerified = true) :
    verifyHandler store log req now
      = (saveRecord store (verifySuccessUpdate c req.ip now),
         log ++ [{ action := .VERIFY, entityType := "CERTIFICATE",
                   entityId := some req.paramId, performedByUsername := none,
                   ipAddress := some req.ip, status := .SUCCESS, errorMessage := none }],
         .success (publicProjection (verifySuccessUpdate c req.ip now))) ∧
    (verifySuccessUpdate c req.ip now).verificationCount = c.verificationCount + 1 ∧
    (verifySuccessUpdate c req.ip now).lastVerifiedAt = some now ∧
    req.ip ∈ (verifySuccessUpdate c req.ip now).ipAddresses.map IPEntry.ip ∧
    (∀ (d : Cert) (i : Nat) (em vh : String) (iv ir : Bool) (lv ra : Option Nat)
        (cu rr nt cb ub : Option String) (ips : List IPEntry),
      publicProjection
          { d with _id := i, recipientEmail := em, verificationHash := vh,
                   isVerified := iv, lastVerifiedAt := lv, certificateUrl := cu,
                   revokedAt := ra, revocationReason := rr, isRevoked := ir,
                   notes := nt, ipAddresses := ips, createdBy := cb, updatedBy := ub }
        = publicProjection d) := by
  refine ⟨?_, (verifySuccessUpdate_fields c req.ip now).1,
    (verifySuccessUpdate_fields c req.ip now).2, ?_,
    fun d i em vh iv ir lv ra cu rr nt cb ub ips => rfl⟩
  · unfold verifyHandler
    rw [hq]
    simp only [Bool.not_true, Bool.false_eq_true, if_false, hfind]
    rw [if_neg (by simp [hrev])]
    have hv : certVerify c now
        = .ok { c with verificationCount := c.verificationCount + 1,
                       lastVerifiedAt := some now } := by
      unfold certVerify
      rw [if_neg (by simp [hrev]), if_neg (by simp [hver])]
    rw [hv]
    rfl
  · unfold verifySuccessUpdate
    exact trackIP_mem_ip _ req.ip now

/-- Witness for C2: verifying the sample certificate `2501001` (counter
0, empty IP list) at time 5 from IP `1.1.1.1`. -/
theorem verify_success_updates_and_projects_witness :
    verifyHandler [sampleCert] []
        { paramId := "2501001", queryId := some "2501001", ip := "1.1.1.1" } 5
      = (saveRecord [sampleCert] (verifySuccessUpdate sampleCert "1.1.1.1" 5),
         [{ action := .VERIFY, entityType := "CERTIFICATE", entityId := some "2501001",
            performedByUsername := none, ipAddress := some "1.1.1.1",
            status := .SUCCESS, errorMessage := none }],
         .success (publicProjection (verifySuccessUpdate sampleCert "1.1.1.1" 5))) ∧
    (verifySuccessUpdate sampleCert "1.1.1.1" 5).verificationCount = 1 := by
  have h := verify_success_updates_and_projects [sampleCert] []
    { paramId := "2501001", queryId := some "2501001", ip := "1.1.1.1" } 5 sampleCert
    (by decide) (by decide) (by decide) (by decide)
  exact ⟨by simpa using h.1, by simpa [sampleCert] using h.2.1⟩

/-- Claim C5: the `ipAddresses` list is a FIFO of at most 10 distinct
IPs.  Starting from any record with at most 10 pairwise-distinct entries:
`trackIP` keeps the list at most 10 long with pairwise-distinct IPs; a
new IP arriving on a full list evicts the front (oldest) entry and is
appended at the back; an already-present IP only has its entry's
timestamp refreshed, the length (and the IP sequence) unchanged. -/
theorem trackIP_fifo_ten_distinct (c : Cert) (ip : String) (now : Nat)
    (hlen : c.ipAddresses.length ≤ 10)
    (hnd : (c.ipAddresses.map IPEntry.ip).Nodup) :
    ((trackIP c ip now).ipAddresses.length ≤ 10 ∧
     ((trackIP c ip now).ipAddresses.map IPEntry.ip).Nodup) ∧
    (ip ∉ c.ipAddresses.map IPEntry.ip → c.ipAddresses.length = 10 →
      (trackIP c ip now).ipAddresses
        = c.ipAddresses.drop 1 ++ [{ ip := ip, verifiedAt := now }]) ∧
    (ip ∈ c.ipAddresses.map IPEntry.ip →
      (trackIP c ip now).ipAddresses
          = c.ipAddresses.map (fun e => if e.ip = ip then { e with verifiedAt := now } else e) ∧
      (trackIP c ip now).ipAddresses.length = c.ipAddresses.length) := by
  unfold trackIP
  cases hfe : c.ipAddresses.find? (fun e => e.ip == ip) with
  | none =>
    have hnm : ip ∉ c.ipAddresses.map IPEntry.ip := by
      intro hm
      obtain ⟨e, he, heip⟩ := List.mem_map.mp hm
      have := List.find?_eq_none.mp hfe e he
      simp [heip] at this
    have hsub : ((if c.ipAddresses.length ≥ 10 then c.ipAddresses.drop 1
        else c.ipAddresses).map IPEntry.ip).Sublist (c.ipAddresses.map IPEntry.ip) := by
      split
      · exact (List.drop_sublist 1 c.ipAddresses).map IPEntry.ip
      · exact List.Sublist.refl _
    refine ⟨⟨?_, ?_⟩, fun _ hfull => ?_, fun hm => absurd hm hnm⟩
    · simp only [List.length_append, List.length_cons, List.length_nil]
      split
      · simp only [List.length_drop]
        omega
      · omega
    · rw [List.map_append]
      rw [List.nodup_append]
      refine ⟨hnd.sublist hsub, by simp, ?_⟩
      intro a ha hb
      simp only [List.map_cons, List.map_nil, List.mem_singleton] at hb
      subst hb
      exact hnm (hsub.mem ha)
    · simp only
      rw [if_pos (by omega)]
  | some e =>
    have hmem : e ∈ c.ipAddresses := List.mem_of_find?_eq_some hfe
    have hip : e.ip = ip := by simpa using List.find?_some hfe
    have hm : ip ∈ c.ipAddresses.map IPEntry.ip :=
      hip ▸ List.mem_map_of_mem IPEntry.ip hmem
    refine ⟨⟨?_, ?_⟩, fun hnm _ => absurd hm hnm, fun _ =>
      ⟨updateFirstIP_eq_map c.ipAddresses ip now hnd, updateFirstIP_length _ _ _⟩⟩
    · simp only [updateFirstIP_length]
      exact hlen
    · simp only [updateFirstIP_map_ip]
      exact hnd

/-- Witness for C5 on the revoked sample certificate's one-entry IP list:
tracking the already-present IP keeps the length, tracking a fresh IP
keeps the bound and distinctness. -/
theorem trackIP_fifo_ten_distinct_witness :
    ((trackIP sampleRevokedCert "7.7.7.7" 99).ipAddresses.length ≤ 10 ∧
     ((trackIP sampleRevokedCert "7.7.7.7" 99).ipAddresses.map IPEntry.ip).Nodup) ∧
    (trackIP sampleRevokedCert "8.8.8.8" 99).ipAddresses.length
      = sampleRevokedCert.ipAddresses.length := by
  refine ⟨(trackIP_fifo_ten_distinct sampleRevokedCert "7.7.7.7" 99
    (by decide) (by decide)).1, ?_⟩
  exact ((trackIP_fifo_ten_distinct sampleRevokedCert "8.8.8.8" 99
    (by decide) (by decide)).2.2 (by decide)).2

/-- Claim C6: the revoke operation is idempotently guarded.  For a request
that reaches the handler and resolves to a stored certificate: if it is
already revoked the handler answers the Already-Revoked conflict, leaves
the store untouched and appends no audit entry; if it is not revoked the
handler persists the record with the revoked flag, the revocation
timestamp and the reason set (defaulting to `"No reason provided"` when
the body carries none), and appends exactly one REVOKE audit entry. -/
theorem revoke_idempotent_guard (store : List Cert) (log : List AuditEntry)
    (req : RevokeReq) (now : Nat) (c : Cert)
    (hv : revokeBodyValid req.reason = true)
    (hfind : findById store req.id = some c) :
    (c.isRevoked = true →
      revokeHandler store log req now = (store, log, .alreadyRevoked)) ∧
    (c.isRevoked = false →
      revokeHandler store log req now
        = (saveRecord store (certRevoke c (req.reason.map jsTrim) now),
           log ++ [{ action := .REVOKE, entityType := "CERTIFICATE",
                     entityId := some (Nat.repr c._id),
                     performedByUsername := some req.username,
                     ipAddress := some req.ip, status := .SUCCESS,
                     errorMessage := none }],
           .revokedOk (certRevoke c (req.reason.map jsTrim) now)) ∧
      (certRevoke c (req.reason.map jsTrim) now).isRevoked = true ∧
      (certRevoke c (req.reason.map jsTrim) now).revokedAt = some now ∧
      (certRevoke c (req.reason.map jsTrim) now).revocationReason
        = some ((req.reason.map jsTrim).getD "No reason provided")) := by
  constructor
  · intro hr
    unfold revokeHandler
    rw [hv]
    simp only [Bool.not_true, Bool.false_eq_true, if_false, hfind]
    rw [if_pos (by simp [hr])]
  · intro hr
    refine ⟨?_, rfl, rfl, rfl⟩
    unfold revokeHandler
    rw [hv]
    simp only [Bool.not_true, Bool.false_eq_true, if_false, hfind]
    rw [if_neg (by simp [hr])]

/-- Witness for C6: revoking the active sample certificate succeeds and
stamps reason and timestamp; revoking the already-revoked sample answers
the conflict and leaves everything unchanged. -/
theorem revoke_idempotent_guard_witness :
    revokeHandler [sampleCert, sampleRevokedCert] []
        { id := 2, reason := some "fraud", ip := "2.2.2.2", username := "root" } 70
      = ([sampleCert, sampleRevokedCert], [], .alreadyRevoked) ∧
    (certRevoke sampleCert (some "fraud") 70).revocationReason = some "fraud" := by
  constructor
  · exact (revoke_idempotent_guard [sampleCert, sampleRevokedCert] []
      { id := 2, reason := some "fraud", ip := "2.2.2.2", username := "root" } 70
      sampleRevokedCert (by decide) (by decide)).1 (by decide)
  · exact ((revoke_idempotent_guard [sampleCert] []
      { id := 1, reason := some "fraud", ip := "2.2.2.2", username := "root" } 70
      sampleCert (by decide) (by decide)).2 (by decide)).2.2.2.trans (by decide)

/-- A locked account answers 429 before any password comparison (helper
for C7). -/
theorem loginHandler_locked (admins : List AdminAcc) (log : List AuditEntry)
    (u pw ip : String) (now : Nat) (cmp : String → String → Bool) (a : AdminAcc)
    (hfind : findAdmin admins u = some a)
    (hcount : 5 ≤ a.attemptsCount)
    (ht : ∃ t, a.lastAttemptAt = some t ∧ now - t < 30 * 60 * 1000) :
    loginHandler admins log u pw ip now cmp = (admins, log, .locked) := by
  obtain ⟨t, htt, hw⟩ := ht
  have hlock : adminIsLocked a now = true := by
    unfold adminIsLocked
    rw [if_pos hcount, htt]
    simpa using hw
  unfold loginHandler
  rw [hfind]
  simp [hlock]

/-- A wrong-password attempt on an unlocked active account records the
failure (helper for C7). -/
theorem loginHandler_wrong_password (a : AdminAcc) (log : List AuditEntry)
    (u pw ip : String) (t : Nat) (cmp : String → String → Bool)
    (hu : a.username = jsToLowerCase u)
    (hlock : adminIsLocked a t = false)
    (ha : a.isActive = true)
    (hp : cmp pw a.passwordHash = false) :
    (loginHandler [a] log u pw ip t cmp).1 = [recordFailedLogin a ip t] := by
  unfold loginHandler findAdmin
  simp [hu, hlock, ha, hp, saveAdmin, recordFailedLogin]

/-- Fewer than five recorded failures never lock (helper for C7). -/
theorem adminIsLocked_of_count_lt (a : AdminAcc) (now : Nat)
    (h : a.attemptsCount < 5) : adminIsLocked a now = false := by
  unfold adminIsLocked
  rw [if_neg (by omega)]

/-- Claim C7: the first conjunct is the lockout rule — any login request
resolving to an account with at least 5 recorded failures whose last
failed attempt lies less than 30 minutes in the past answers
account-locked, for every supplied password and password oracle, leaving
all state unchanged.  The second conjunct is the scenario: from a fresh
active account, five wrong-password attempts (at any times) are each
recorded through the handler, and afterwards every attempt within 30
minutes of the fifth failure — whatever its password — answers
account-locked. -/
theorem login_lockout_rule :
    (∀ (admins : List AdminAcc) (log : List AuditEntry) (u pw ip : String) (now : Nat)
        (cmp : String → String → Bool) (a : AdminAcc),
      findAdmin admins u = some a → 5 ≤ a.attemptsCount →
      (∃ t, a.lastAttemptAt = some t ∧ now - t < 30 * 60 * 1000) →
      loginHandler admins log u pw ip now cmp = (admins, log, .locked)) ∧
    (∀ (a0 : AdminAcc) (log : List AuditEntry) (u pw1 pw2 pw3 pw4 pw5 ip : String)
        (t1 t2 t3 t4 t5 : Nat) (cmp : String → String → Bool),
      a0.username = jsToLowerCase u → a0.isActive = true → a0.attemptsCount = 0 →
      cmp pw1 a0.passwordHash = false → cmp pw2 a0.passwordHash = false →
      cmp pw3 a0.passwordHash = false → cmp pw4 a0.passwordHash = false →
      cmp pw5 a0.passwordHash = false →
      (loginHandler [a0] log u pw1 ip t1 cmp).1
          = [failedAttempts a0 ip [t1]] ∧
      (loginHandler [failedAttempts a0 ip [t1]] log u pw2 ip t2 cmp).1
          = [failedAttempts a0 ip [t1, t2]] ∧
      (loginHandler [failedAttempts a0 ip [t1, t2]] log u pw3 ip t3 cmp).1
          = [failedAttempts a0 ip [t1, t2, t3]] ∧
      (loginHandler [failedAttempts a0 ip [t1, t2, t3]] log u pw4 ip t4 cmp).1
          = [failedAttempts a0 ip [t1, t2, t3, t4]] ∧
      (loginHandler [failedAttempts a0 ip [t1, t2, t3, t4]] log u pw5 ip t5 cmp).1
          = [failedAttempts a0 ip [t1, t2, t3, t4, t5]] ∧
      (∀ (pw6 : String) (now : Nat), now - t5 < 30 * 60 * 1000 →
        loginHandler [failedAttempts a0 ip [t1, t2, t3, t4, t5]] log u pw6 ip now cmp
          = ([failedAttempts a0 ip [t1, t2, t3, t4, t5]], log, .locked))) := by
  constructor
  · intro admins log u pw ip now cmp a hfind hcount ht
    exact loginHandler_locked admins log u pw ip now cmp a hfind hcount ht
  · intro a0 log u pw1 pw2 pw3 pw4 pw5 ip t1 t2 t3 t4 t5 cmp hu ha hc hp1 hp2 hp3 hp4 hp5
    refine ⟨?_, ?_, ?_, ?_, ?_, ?_⟩
    · exact loginHandler_wrong_password a0 log u pw1 ip t1 cmp hu
        (adminIsLocked_of_count_lt a0 t1 (by omega)) ha hp1
    · exact loginHandler_wrong_password _ log u pw2 ip t2 cmp
        (by simp [failedAttempts, recordFailedLogin, hu])
        (adminIsLocked_of_count_lt _ t2
          (by simp [failedAttempts, recordFailedLogin, hc]))
        (by simp [failedAttempts, recordFailedLogin, ha])
        (by simpa [failedAttempts, recordFailedLogin] using hp2)
    · exact loginHandler_wrong_password _ log u pw3 ip t3 cmp
        (by simp [failedAttempts, recordFailedLogin, hu])
        (adminIsLocked_of_count_lt _ t3
          (by simp [failedAttempts, recordFailedLogin, hc]))
        (by simp [failedAttempts, recordFailedLogin, ha])
        (by simpa [failedAttempts, recordFailedLogin] using hp3)
    · exact loginHandler_wrong_password _ log u pw4 ip t4 cmp
        (by simp [failedAttempts, recordFailedLogin, hu])
        (adminIsLocked_of_count_lt _ t4
          (by simp [failedAttempts, recordFailedLogin, hc]))
        (by simp [failedAttempts, recordFailedLogin, ha])
        (by simpa [failedAttempts, recordFailedLogin] using hp4)
    · exact loginHandler_wrong_password _ log u pw5 ip t5 cmp
        (by simp [failedAttempts, recordFailedLogin, hu])
        (adminIsLocked_of_count_lt _ t5
          (by simp [failedAttempts, recordFailedLogin, hc]))
        (by simp [failedAttempts, recordFailedLogin, ha])
        (by simpa [failedAttempts, recordFailedLogin] using hp5)
    · intro pw6 now hw
      have hfind : findAdmin [failedAttempts a0 ip [t1, t2, t3, t4, t5]] u
          = some (failedAttempts a0 ip [t1, t2, t3, t4, t5]) := by
        simp [findAdmin, failedAttempts, recordFailedLogin, hu]
      refine loginHandler_locked _ log u pw6 ip now cmp _ hfind ?_ ⟨t5, ?_, hw⟩
      · simp [failedAttempts, recordFailedLogin, hc]
      · simp [failedAttempts, recordFailedLogin]

/-- Witness for C7: an account with 5 recorded failures, the last at
minute 4, answers account-locked at minute 10 even though the password
oracle reports the supplied password as correct; and from a fresh
account, a first wrong-password attempt is recorded through the
handler. -/
theorem login_lockout_rule_witness :
    loginHandler
        [{ _id := 1, username := "admin1", passwordHash := "h", isActive := true,
           attemptsCount := 5, lastAttemptAt := some 240000, lastLogin := none,
           lastLoginIP := none }] [] "Admin1" "TheRightPassword1!" "1.1.1.1" 600000
        (fun _ _ => true)
      = ([{ _id := 1, username := "admin1", passwordHash := "h", isActive := true,
            attemptsCount := 5, lastAttemptAt := some 240000, lastLogin := none,
            lastLoginIP := none }], [], .locked) ∧
    (loginHandler
        [{ _id := 2, username := "admin2", passwordHash := "h", isActive := true,
           attemptsCount := 0, lastAttemptAt := none, lastLogin := none,
           lastLoginIP := none }] [] "Admin2" "wrong" "1.1.1.1" 0
        (fun _ _ => false)).1
      = [failedAttempts
          { _id := 2, username := "admin2", passwordHash := "h", isActive := true,
            attemptsCount := 0, lastAttemptAt := none, lastLogin := none,
            lastLoginIP := none } "1.1.1.1" [0]] := by
  constructor
  · exact (login_lockout_rule).1
      [{ _id := 1, username := "admin1", passwordHash := "h", isActive := true,
         attemptsCount := 5, lastAttemptAt := some 240000, lastLogin := none,
         lastLoginIP := none }] [] "Admin1" "TheRightPassword1!" "1.1.1.1" 600000
      (fun _ _ => true)
      { _id := 1, username := "admin1", passwordHash := "h", isActive := true,
        attemptsCount := 5, lastAttemptAt := some 240000, lastLogin := none,
        lastLoginIP := none }
      (by decide) (by decide) ⟨240000, rfl, by decide⟩
  · exact ((login_lockout_rule).2
      { _id := 2, username := "admin2", passwordHash := "h", isActive := true,
        attemptsCount := 0, lastAttemptAt := none, lastLogin := none,
        lastLoginIP := none } [] "Admin2" "wrong" "w2" "w3" "w4" "w5" "1.1.1.1"
      0 1 2 3 4 (fun _ _ => false) (by decide) rfl rfl rfl rfl rfl rfl rfl).1
